import Mathlib

/-
Verification of the nerfnet radio-tunnel transport.

Shallow embedding of:
  src/nerfnet/net/secondary_radio_interface.cc  (SecondaryRadioInterface)
  src/nerfnet/net/mock_link.cc                  (MockLink)
  src/nerfnet/util/encode_decode.cc             (EncodeValue)
Bytes are modelled as Nat values < 256, 32-bit ids as Nat values reduced
mod 2^32 where the C++ code wraps, and protobuf optional fields as Option.
-/

namespace Nerfnet

/-- A received Request::NetworkTunnelTxRx message. Protobuf optional fields
(`id`, `ack_id`, `payload`) are modelled with Option; `remaining_bytes`
defaults to 0 when unset, which protobuf reports as the value 0, so it is a
plain Nat. -/
structure TunnelMsg where
  id : Option Nat
  ack_id : Option Nat
  payload : Option (List Nat)
  remaining_bytes : Nat
deriving Repr, DecidableEq

/-- A Response::NetworkTunnelTxRx message as composed by the secondary.
The source sets `ack_id` from `last_ack_id_.value()`; it is kept as an
Option here so that its presence can be stated (see C10). -/
structure TunnelResponse where
  id : Nat
  ack_id : Option Nat
  payload : Option (List Nat)
  remaining_bytes : Nat
deriving Repr, DecidableEq

/-- The mutable endpoint state of the secondary relevant to
HandleNetworkTunnelTxRx. The fields `next_id_`, `last_ack_id_`,
`frame_buffer_` and `read_buffer_` live in the RadioInterface base class
(spec sections 3.1 and 4.6); `payload_in_flight_` is a member of
SecondaryRadioInterface. Ids are kept < 2^32 by reducing mod 2^32 wherever
the 32-bit code wraps. -/
structure SecondaryState where
  next_id : Nat
  last_ack_id : Option Nat
  frame_buffer : List Nat
  read_buffer : List (List Nat)
  payload_in_flight : Bool
deriving Repr, DecidableEq

/-- Modelled from the spec: RadioInterface::ValidateID (radio_interface.cc
is not under src/). Spec section 4.3: on the first message ever received
`last_ack_id := id` and any id is accepted; on subsequent messages the id
is valid iff it equals `last_ack_id + 1` modulo 2^32, and on valid receipt
`last_ack_id := id`. Returns the validity verdict and the updated state. -/
def validateID (s : SecondaryState) (mid : Nat) : Bool × SecondaryState :=
  match s.last_ack_id with
  | none => (true, { s with last_ack_id := some mid })
  | some a =>
      if mid = (a + 1) % 2 ^ 32 then
        (true, { s with last_ack_id := some mid })
      else
        (false, s)

/-- Modelled from the spec: RadioInterface::AdvanceID (radio_interface.cc
is not under src/). Spec section 4.3: the endpoint's own `next_id` advances
by one when the peer acknowledges it; `next_id` is 32-bit unsigned and
wraps. -/
def advanceID (s : SecondaryState) : SecondaryState :=
  { s with next_id := (s.next_id + 1) % 2 ^ 32 }

/-- Erasing the transmitted chunk from the front datagram of the read
buffer: drop the first min(|frame|, 8) bytes of the front entry and pop the
entry if it became empty (secondary_radio_interface.cc lines 124-131). On
an empty queue nothing happens (the source guards with !read_buffer_.empty()). -/
def eraseFrontChunk (q : List (List Nat)) : List (List Nat) :=
  match q with
  | [] => []
  | frame :: rest =>
      let frame2 := frame.drop (min frame.length 8)
      if frame2.isEmpty then rest else frame2 :: rest

/-- The payload / reassembly part of HandleNetworkTunnelTxRx
(secondary_radio_interface.cc lines 105-115), reached only when ValidateID
accepted the id. If the message has a payload it is appended to
frame_buffer; then, still inside that branch, if remaining_bytes == 0 the
frame_buffer is written to the TUN fd and cleared. Returns the new state
and the list of TUN writes performed (empty or a singleton). -/
def payloadStep (msg : TunnelMsg) (s : SecondaryState) :
    SecondaryState × List (List Nat) :=
  match msg.payload with
  | none => (s, [])
  | some p =>
      let fb := s.frame_buffer ++ p
      if msg.remaining_bytes = 0 then
        ({ s with frame_buffer := [] }, [fb])
      else
        ({ s with frame_buffer := fb }, [])

/-- The ACK part of HandleNetworkTunnelTxRx (secondary_radio_interface.cc
lines 118-136). If the message carries ack_id and it equals next_id, the
id advances, and when a payload was in flight the transmitted chunk is
erased from the front datagram and payload_in_flight is cleared; on a
mismatch only an error is logged and nothing changes. This block runs
regardless of whether ValidateID accepted the message id. -/
def ackStep (msg : TunnelMsg) (s : SecondaryState) : SecondaryState :=
  match msg.ack_id with
  | none => s
  | some a =>
      if a = s.next_id then
        let s1 := advanceID s
        if s1.payload_in_flight then
          { s1 with read_buffer := eraseFrontChunk s1.read_buffer,
                    payload_in_flight := false }
        else
          s1
      else
        s

/-- Composition of the NetworkTunnelTxRx response
(secondary_radio_interface.cc lines 138-149): the response carries
id = next_id and ack_id = last_ack_id; when the read buffer is non-empty
the first min(|front|, 8) bytes of the front datagram are attached as the
payload with remaining_bytes = |front| - |chunk|, and payload_in_flight is
set; the chunk is not removed from the datagram here. -/
def composeStep (s : SecondaryState) : TunnelResponse × SecondaryState :=
  match s.read_buffer with
  | [] =>
      ({ id := s.next_id, ack_id := s.last_ack_id, payload := none,
         remaining_bytes := 0 }, s)
  | frame :: _ =>
      let transfer := min frame.length 8
      ({ id := s.next_id, ack_id := s.last_ack_id,
         payload := some (frame.take transfer),
         remaining_bytes := frame.length - transfer },
       { s with payload_in_flight := true })

/-- The observable outcome of one call to HandleNetworkTunnelTxRx:
the endpoint state afterwards, the response handed to Send (none when the
handler returned early), the datagrams written to the TUN fd, and which
error logs were emitted. -/
structure HandleResult where
  st : SecondaryState
  response : Option TunnelResponse
  tunWrites : List (List Nat)
  loggedMissingFields : Bool
  loggedNonSequential : Bool
deriving Repr, DecidableEq

/-- SecondaryRadioInterface::HandleNetworkTunnelTxRx
(secondary_radio_interface.cc lines 94-155). The missing-field check is
`!tunnel.has_id() || last_ack_id_.has_value() && !tunnel.has_ack_id()`
(&& binds tighter than ||); on failure the handler logs and returns with
no response. Otherwise ValidateID runs; on an invalid id only an error is
logged and the payload branch is skipped, while the ACK block and the
response composition run in every case. -/
def handleNetworkTunnelTxRx (msg : TunnelMsg) (s : SecondaryState) :
    HandleResult :=
  match msg.id with
  | none =>
      { st := s, response := none, tunWrites := [],
        loggedMissingFields := true, loggedNonSequential := false }
  | some mid =>
      if s.last_ack_id.isSome && msg.ack_id.isNone then
        { st := s, response := none, tunWrites := [],
          loggedMissingFields := true, loggedNonSequential := false }
      else
        let v := validateID s mid
        let pw := if v.1 then payloadStep msg v.2 else (v.2, [])
        let s3 := ackStep msg pw.1
        let rs := composeStep s3
        { st := rs.2, response := some rs.1, tunWrites := pw.2,
          loggedMissingFields := false, loggedNonSequential := !v.1 }

/-- The state the ACK step runs on inside the handler: the state after
ValidateID and, when the id was accepted, after the payload step. -/
def preAckState (msg : TunnelMsg) (s : SecondaryState) (mid : Nat) :
    SecondaryState :=
  if (validateID s mid).1 then (payloadStep msg (validateID s mid).2).1
  else (validateID s mid).2

/-- Concrete non-sequential message for the C1 scenario: id 5 when 4 is
expected, carrying ack_id 7 which matches the secondary's next_id. -/
def mC1 : TunnelMsg :=
  { id := some 5, ack_id := some 7, payload := none, remaining_bytes := 0 }

/-- Concrete secondary state for the C1 scenario: last_ack_id 3, next_id 7
and a two-byte datagram whose chunk is in flight. -/
def sC1 : SecondaryState :=
  { next_id := 7, last_ack_id := some 3, frame_buffer := [],
    read_buffer := [[1, 2]], payload_in_flight := true }

/-- Concrete valid message for the C5 scenario: sequential id 4, no
payload, remaining_bytes 0 (the protobuf default). -/
def mC5 : TunnelMsg :=
  { id := some 4, ack_id := some 5, payload := none, remaining_bytes := 0 }

/-- Concrete secondary state for the C5 scenario: a non-empty frame_buffer
awaiting further fragments. -/
def sC5 : SecondaryState :=
  { next_id := 0, last_ack_id := some 3, frame_buffer := [9],
    read_buffer := [], payload_in_flight := false }

/-- A Ping message; `value` is an optional u32. Request and response share
this shape. -/
structure PingMsg where
  value : Option Nat
deriving Repr, DecidableEq

/-- SecondaryRadioInterface::HandlePing (secondary_radio_interface.cc
lines 80-92): the response's value is set from the request's value exactly
when the request has one, and the response is always sent. -/
def handlePing (ping : PingMsg) : PingMsg :=
  if h : ping.value.isSome then
    { value := some (ping.value.get h) }
  else
    { value := none }

/-- MockLink::Beacon schedule assertion (mock_link.cc lines 39-47): with
the current beacon_count n, the expected beacon time is
n * beacon_interval_us in uint64 arithmetic, and the assertions pass iff
relative_time_us is in [expected, expected + 10000). All quantities are
uint64, hence the reductions mod 2^64. -/
def beaconAssertsPass (beaconCount intervalUs t : Nat) : Bool :=
  let expected := beaconCount * intervalUs % 2 ^ 64
  decide (expected ≤ t % 2 ^ 64) &&
    decide (t % 2 ^ 64 < (expected + 10000) % 2 ^ 64)

/-- One MockLink::Beacon call at relative time t: the schedule assertions
are evaluated against the current beacon_count, which is then
post-incremented. Returns the assertion verdict and the next count. -/
def mockBeacon (intervalUs : Nat) (beaconCount t : Nat) : Bool × Nat :=
  (beaconAssertsPass beaconCount intervalUs t, beaconCount + 1)

/-- A sequence of MockLink::Beacon invocations at the given relative times,
starting from the given beacon_count; yields each call's assertion
verdict. -/
def runBeacons (intervalUs : Nat) (beaconCount : Nat) (times : List Nat) :
    List Bool :=
  match times with
  | [] => []
  | t :: rest =>
      let r := mockBeacon intervalUs beaconCount t
      r.1 :: runBeacons intervalUs r.2 rest

/-- EncodeValue (encode_decode.cc lines 29-36): four push_back calls of the
uint8 truncations of value, value >> 8, value >> 16 and value >> 24, in
that order. -/
def EncodeValue (value : Nat) : List Nat :=
  [value % 256, value / 2 ^ 8 % 256, value / 2 ^ 16 % 256,
   value / 2 ^ 24 % 256]

/-- ValidateID touches only last_ack_id: next_id, frame_buffer, read_buffer
and payload_in_flight pass through unchanged. -/
theorem validateID_preserves (s : SecondaryState) (mid : Nat) :
    (validateID s mid).2.next_id = s.next_id ∧
    (validateID s mid).2.frame_buffer = s.frame_buffer ∧
    (validateID s mid).2.read_buffer = s.read_buffer ∧
    (validateID s mid).2.payload_in_flight = s.payload_in_flight := by
  obtain ⟨n, la, fb, rb, pif⟩ := s
  cases la <;> simp [validateID]
  split <;> simp

/-- After ValidateID runs, last_ack_id always holds a value: the first
message establishes it and later messages can only overwrite it. -/
theorem validateID_establishes (s : SecondaryState) (mid : Nat) :
    ((validateID s mid).2.last_ack_id).isSome = true := by
  obtain ⟨n, la, fb, rb, pif⟩ := s
  cases la <;> simp [validateID]
  split <;> simp

/-- When the received id is non-sequential, ValidateID reports false and
leaves the state untouched. -/
theorem validateID_reject (s : SecondaryState) (mid a : Nat)
    (hla : s.last_ack_id = some a) (hne : mid ≠ (a + 1) % 2 ^ 32) :
    validateID s mid = (false, s) := by
  unfold validateID
  rw [hla]
  exact if_neg hne

/-- The payload step touches only frame_buffer and the TUN fd: next_id,
last_ack_id, read_buffer and payload_in_flight pass through unchanged. -/
theorem payloadStep_preserves (msg : TunnelMsg) (s : SecondaryState) :
    (payloadStep msg s).1.next_id = s.next_id ∧
    (payloadStep msg s).1.last_ack_id = s.last_ack_id ∧
    (payloadStep msg s).1.read_buffer = s.read_buffer ∧
    (payloadStep msg s).1.payload_in_flight = s.payload_in_flight := by
  obtain ⟨i, ack, p, rb⟩ := msg
  cases p <;> simp [payloadStep]
  split <;> simp

/-- The ACK step touches only next_id, read_buffer and payload_in_flight:
last_ack_id and frame_buffer pass through unchanged. -/
theorem ackStep_preserves (msg : TunnelMsg) (s : SecondaryState) :
    (ackStep msg s).last_ack_id = s.last_ack_id ∧
    (ackStep msg s).frame_buffer = s.frame_buffer := by
  obtain ⟨i, ack, p, rb⟩ := msg
  cases ack <;> simp [ackStep, advanceID]
  split
  · split <;> simp
  · simp

/-- The ACK step with a missing ack_id leaves the state untouched. -/
theorem ackStep_none (msg : TunnelMsg) (s : SecondaryState)
    (h : msg.ack_id = none) : ackStep msg s = s := by
  simp [ackStep, h]

/-- The ACK step with a mismatching ack_id leaves the state untouched. -/
theorem ackStep_mismatch (msg : TunnelMsg) (s : SecondaryState) (a : Nat)
    (hack : msg.ack_id = some a) (hne : a ≠ s.next_id) :
    ackStep msg s = s := by
  simp [ackStep, hack, hne]

/-- The ACK step with a matching ack_id while a payload is in flight:
next_id advances mod 2^32, the transmitted chunk is erased from the front
of the read buffer, and payload_in_flight is cleared. -/
theorem ackStep_match (msg : TunnelMsg) (s : SecondaryState)
    (hack : msg.ack_id = some s.next_id) (hpif : s.payload_in_flight = true) :
    ackStep msg s =
      { s with next_id := (s.next_id + 1) % 2 ^ 32,
               read_buffer := eraseFrontChunk s.read_buffer,
               payload_in_flight := false } := by
  simp [ackStep, hack, advanceID, hpif]

/-- Advancing a Nat by one mod 2^32 never returns the same Nat. -/
theorem advance_ne (n : Nat) : (n + 1) % 2 ^ 32 ≠ n := by
  intro h
  rcases Nat.lt_or_ge n (2 ^ 32) with hlt | hge
  · rcases Nat.lt_or_ge (n + 1) (2 ^ 32) with h2 | h2
    · rw [Nat.mod_eq_of_lt h2] at h
      omega
    · have hn : n + 1 = 2 ^ 32 := by omega
      rw [hn] at h
      simp at h
      omega
  · have := Nat.mod_lt (n + 1) (show 0 < 2 ^ 32 by norm_num)
    omega

/-- The ACK step with a matching ack_id while no payload is in flight only
advances next_id. -/
theorem ackStep_match_idle (msg : TunnelMsg) (s : SecondaryState)
    (hack : msg.ack_id = some s.next_id)
    (hpif : s.payload_in_flight = false) :
    ackStep msg s = advanceID s := by
  simp [ackStep, hack, advanceID, hpif]

/-- The ACK step changes next_id exactly when the message's ack_id matches,
in which case next_id advances by one mod 2^32. -/
theorem ackStep_next_id (msg : TunnelMsg) (s : SecondaryState) :
    (ackStep msg s).next_id ≠ s.next_id ↔ msg.ack_id = some s.next_id := by
  constructor
  · intro h
    cases hack : msg.ack_id with
    | none =>
        rw [ackStep_none msg s hack] at h
        exact absurd rfl h
    | some a =>
        by_cases ha : a = s.next_id
        · rw [ha]
        · rw [ackStep_mismatch msg s a hack ha] at h
          exact absurd rfl h
  · intro hack
    cases hpif : s.payload_in_flight with
    | true =>
        rw [ackStep_match msg s hack hpif]
        exact advance_ne s.next_id
    | false =>
        rw [ackStep_match_idle msg s hack hpif]
        exact advance_ne s.next_id

/-- When the ack_id matches, next_id advances by one mod 2^32 whether or
not a payload was in flight. -/
theorem ackStep_next_id_match (msg : TunnelMsg) (s : SecondaryState)
    (hack : msg.ack_id = some s.next_id) :
    (ackStep msg s).next_id = (s.next_id + 1) % 2 ^ 32 := by
  cases hpif : s.payload_in_flight
  · rw [ackStep_match_idle msg s hack hpif]
    rfl
  · rw [ackStep_match msg s hack hpif]

/-- Evaluation of the payload step on a message carrying the final
fragment: append, write the assembled datagram to the TUN fd, clear. -/
theorem payloadStep_flush (msg : TunnelMsg) (s : SecondaryState)
    (p : List Nat) (hp : msg.payload = some p)
    (hr : msg.remaining_bytes = 0) :
    payloadStep msg s = ({ s with frame_buffer := [] },
      [s.frame_buffer ++ p]) := by
  simp [payloadStep, hp, hr]

/-- Evaluation of the payload step on a message carrying a non-final
fragment: append only, no TUN write. -/
theorem payloadStep_append (msg : TunnelMsg) (s : SecondaryState)
    (p : List Nat) (hp : msg.payload = some p)
    (hr : msg.remaining_bytes ≠ 0) :
    payloadStep msg s = ({ s with frame_buffer := s.frame_buffer ++ p },
      []) := by
  simp [payloadStep, hp, hr]

/-- Evaluation of the payload step on a message with no payload: nothing
happens, even when remaining_bytes is 0. -/
theorem payloadStep_nopayload (msg : TunnelMsg) (s : SecondaryState)
    (hp : msg.payload = none) :
    payloadStep msg s = (s, []) := by
  simp [payloadStep, hp]

/-- The composition step preserves next_id, last_ack_id, frame_buffer and
the read buffer (the chunk is not removed at composition time), and the
response fields id and ack_id come from the state. -/
theorem composeStep_preserves (s : SecondaryState) :
    (composeStep s).2.next_id = s.next_id ∧
    (composeStep s).2.last_ack_id = s.last_ack_id ∧
    (composeStep s).2.frame_buffer = s.frame_buffer ∧
    (composeStep s).2.read_buffer = s.read_buffer ∧
    (composeStep s).1.id = s.next_id ∧
    (composeStep s).1.ack_id = s.last_ack_id := by
  obtain ⟨n, la, fb, rb, pif⟩ := s
  cases rb <;> simp [composeStep]

/-- The composition step sets payload_in_flight exactly when the read
buffer is non-empty, and otherwise leaves it alone. -/
theorem composeStep_pif (s : SecondaryState) :
    (composeStep s).2.payload_in_flight =
      (s.payload_in_flight || !s.read_buffer.isEmpty) := by
  obtain ⟨n, la, fb, rb, pif⟩ := s
  cases rb <;> simp [composeStep]

/-- The pre-ACK state agrees with the initial state on next_id,
read_buffer and payload_in_flight: neither ValidateID nor the payload step
touches them. -/
theorem preAckState_preserves (msg : TunnelMsg) (s : SecondaryState)
    (mid : Nat) :
    (preAckState msg s mid).next_id = s.next_id ∧
    (preAckState msg s mid).read_buffer = s.read_buffer ∧
    (preAckState msg s mid).payload_in_flight = s.payload_in_flight := by
  unfold preAckState
  cases hv : (validateID s mid).1
  · simp only [Bool.false_eq_true, if_false]
    exact ⟨(validateID_preserves s mid).1, (validateID_preserves s mid).2.2.1,
      (validateID_preserves s mid).2.2.2⟩
  · simp only [if_true]
    refine ⟨?_, ?_, ?_⟩
    · rw [(payloadStep_preserves msg _).1, (validateID_preserves s mid).1]
    · rw [(payloadStep_preserves msg _).2.2.1,
        (validateID_preserves s mid).2.2.1]
    · rw [(payloadStep_preserves msg _).2.2.2,
        (validateID_preserves s mid).2.2.2]

/-- The pre-ACK state always carries an established last_ack_id, because
ValidateID establishes it and the payload step preserves it. -/
theorem preAckState_establishes (msg : TunnelMsg) (s : SecondaryState)
    (mid : Nat) :
    ((preAckState msg s mid).last_ack_id).isSome = true := by
  unfold preAckState
  cases hv : (validateID s mid).1
  · simp only [Bool.false_eq_true, if_false]
    exact validateID_establishes s mid
  · simp only [if_true]
    rw [(payloadStep_preserves msg _).2.1]
    exact validateID_establishes s mid

/-- Unfolding of the handler on a message that fails the missing-field
check: early return, nothing is modified and no response is produced. -/
theorem handleTunnel_malformed_eq (msg : TunnelMsg) (s : SecondaryState)
    (h : msg.id = none ∨ (s.last_ack_id.isSome = true ∧ msg.ack_id = none)) :
    handleNetworkTunnelTxRx msg s =
      { st := s, response := none, tunWrites := [],
        loggedMissingFields := true, loggedNonSequential := false } := by
  rcases h with hid | ⟨hla, hack⟩
  · simp [handleNetworkTunnelTxRx, hid]
  · cases hid : msg.id with
    | none => simp [handleNetworkTunnelTxRx, hid]
    | some mid => simp [handleNetworkTunnelTxRx, hid, hla, hack]

/-- Unfolding of the handler on a message that passes the missing-field
check: ValidateID, then (on success) the payload step, then the ACK step,
then the response composition. -/
theorem handleTunnel_eq (msg : TunnelMsg) (s : SecondaryState) (mid : Nat)
    (hid : msg.id = some mid)
    (hck : ¬(s.last_ack_id.isSome = true ∧ msg.ack_id = none)) :
    handleNetworkTunnelTxRx msg s =
      { st := (composeStep (ackStep msg (preAckState msg s mid))).2,
        response := some (composeStep (ackStep msg (preAckState msg s mid))).1,
        tunWrites :=
          (if (validateID s mid).1 then (payloadStep msg (validateID s mid).2).2
           else []),
        loggedMissingFields := false,
        loggedNonSequential := !(validateID s mid).1 } := by
  unfold handleNetworkTunnelTxRx preAckState
  rw [hid]
  have hc : (s.last_ack_id.isSome && msg.ack_id.isNone) = false := by
    cases hla : s.last_ack_id.isSome
    · simp
    · cases han : msg.ack_id
      · exact absurd ⟨hla, han⟩ hck
      · simp [han]
  rw [hc]
  simp only [Bool.false_eq_true, if_false]
  cases hv : (validateID s mid).1 <;> simp

/-- C9: EncodeValue of a 32-bit value is a list of four bytes (each < 256)
whose little-endian value (least-significant byte first) is the value
itself, and EncodeValue 0x01020304 yields the bytes 04 03 02 01. -/
theorem encodeValue_littleEndian (v : Nat) (h : v < 2 ^ 32) :
    (EncodeValue v).length = 4 ∧
    (∀ b ∈ EncodeValue v, b < 256) ∧
    (EncodeValue v).foldr (fun b acc => b + 256 * acc) 0 = v ∧
    EncodeValue 0x01020304 = [0x04, 0x03, 0x02, 0x01] := by
  refine ⟨rfl, ?_, ?_, by decide⟩
  · intro b hb
    simp only [EncodeValue, List.mem_cons, List.not_mem_nil, or_false] at hb
    rcases hb with h1 | h1 | h1 | h1 <;> subst h1 <;>
      exact Nat.mod_lt _ (by norm_num)
  · simp only [EncodeValue, List.foldr_cons, List.foldr_nil]
    omega

/-- C9 witness: the theorem applied at the spec's example value. -/
theorem encodeValue_littleEndian_witness :
    (EncodeValue 0x01020304).foldr (fun b acc => b + 256 * acc) 0 =
      0x01020304 :=
  (encodeValue_littleEndian 0x01020304 (by norm_num)).2.2.1

/-- The n-th verdict of a run of MockLink::Beacon calls starting at
beacon_count c checks the time against count c + n. -/
theorem runBeacons_get (intervalUs : Nat) :
    ∀ (times : List Nat) (c n : Nat),
      (runBeacons intervalUs c times)[n]? =
        (times[n]?).map (fun t => beaconAssertsPass (c + n) intervalUs t) := by
  intro times
  induction times with
  | nil => intro c n; simp [runBeacons]
  | cons t rest ih =>
      intro c n
      cases n with
      | zero => simp [runBeacons, mockBeacon]
      | succ m =>
          have hm := ih (c + 1) m
          simp only [runBeacons, mockBeacon, List.getElem?_cons_succ, hm]
          have harith : c + 1 + m = c + (m + 1) := by omega
          rw [harith]

/-- C8: the n-th MockLink::Beacon invocation (counting from 0) at relative
time t passes the mock's schedule assertions iff
t ∈ [n * beacon_interval, n * beacon_interval + 10000 us), provided the
uint64 arithmetic does not wrap. -/
theorem mockBeacon_schedule (intervalUs : Nat) (times : List Nat)
    (n t : Nat) (ht : times[n]? = some t)
    (hno : n * intervalUs + 10000 < 2 ^ 64) (htb : t < 2 ^ 64) :
    (runBeacons intervalUs 0 times)[n]? = some true ↔
      (n * intervalUs ≤ t ∧ t < n * intervalUs + 10000) := by
  have h := runBeacons_get intervalUs times 0 n
  rw [ht] at h
  simp only [Option.map_some, Nat.zero_add] at h
  rw [h]
  have h1 : n * intervalUs % 2 ^ 64 = n * intervalUs :=
    Nat.mod_eq_of_lt (by omega)
  have h2 : t % 2 ^ 64 = t := Nat.mod_eq_of_lt htb
  simp only [beaconAssertsPass, h1, h2, Nat.mod_eq_of_lt hno,
    Option.map_some', Option.some.injEq, Bool.and_eq_true,
    decide_eq_true_eq]

/-- C8 witness: the second beacon of a run, 1 us late, is accepted. -/
theorem mockBeacon_schedule_witness :
    (runBeacons 100000 0 [0, 100001])[1]? = some true ↔
      (1 * 100000 ≤ 100001 ∧ 100001 < 1 * 100000 + 10000) :=
  mockBeacon_schedule 100000 [0, 100001] 1 100001 (by rfl) (by norm_num)
    (by norm_num)

/-- C7: the Ping response's value field is present iff the request's value
field is present, and when present it equals the request's value. -/
theorem handlePing_echo (ping : PingMsg) :
    ((handlePing ping).value.isSome ↔ ping.value.isSome) ∧
    (∀ v, ping.value = some v → (handlePing ping).value = some v) := by
  constructor
  · cases h : ping.value <;> simp [handlePing, h]
  · intro v hv
    simp [handlePing, hv]

/-- C7 witness: a ping with value 0xDEADBEEF is echoed back verbatim. -/
theorem handlePing_echo_witness :
    (handlePing { value := some 0xDEADBEEF }).value = some 0xDEADBEEF :=
  (handlePing_echo { value := some 0xDEADBEEF }).2 0xDEADBEEF rfl

/-- C4: whenever a response is composed while the read buffer is non-empty
with front datagram D, the payload is exactly the first min(|D|, 8) bytes
of D, remaining_bytes is |D| minus the payload length, payload_in_flight
is set, and the read buffer (including D) is unchanged at composition
time. -/
theorem composeStep_chunk (s : SecondaryState) (D : List Nat)
    (rest : List (List Nat)) (h : s.read_buffer = D :: rest) :
    (composeStep s).1.payload = some (D.take (min D.length 8)) ∧
    (composeStep s).1.remaining_bytes =
      D.length - (D.take (min D.length 8)).length ∧
    (composeStep s).2.payload_in_flight = true ∧
    (composeStep s).2.read_buffer = D :: rest := by
  obtain ⟨n, la, fb, rb, pif⟩ := s
  simp only at h
  subst h
  simp [composeStep, List.length_take]

/-- C4 witness: composing with a 10-byte front datagram takes its first 8
bytes and reports 2 remaining. -/
theorem composeStep_chunk_witness :
    (composeStep
        { next_id := 1, last_ack_id := some 0,
          frame_buffer := [],
          read_buffer := [[1, 2, 3, 4, 5, 6, 7, 8, 9, 10]],
          payload_in_flight := false }).1.payload =
      some ([1, 2, 3, 4, 5, 6, 7, 8, 9, 10].take
        (min (List.length [1, 2, 3, 4, 5, 6, 7, 8, 9, 10]) 8)) :=
  (composeStep_chunk _ [1, 2, 3, 4, 5, 6, 7, 8, 9, 10] [] rfl).1

/-- C6: a tunnel request missing id, or missing ack_id while last_ack_id
is established, is logged as malformed with no response and no state
change; otherwise a response is produced; and for a request with id but
without ack_id, a response is produced iff the secondary has no
last_ack_id. -/
theorem handleTunnel_missingFields (msg : TunnelMsg) (s : SecondaryState) :
    ((msg.id = none ∨ (s.last_ack_id.isSome = true ∧ msg.ack_id = none)) →
      handleNetworkTunnelTxRx msg s =
        { st := s, response := none, tunWrites := [],
          loggedMissingFields := true, loggedNonSequential := false }) ∧
    ((msg.id ≠ none ∧ ¬(s.last_ack_id.isSome = true ∧ msg.ack_id = none)) →
      ((handleNetworkTunnelTxRx msg s).response.isSome = true ∧
        (handleNetworkTunnelTxRx msg s).loggedMissingFields = false)) ∧
    (msg.id ≠ none → msg.ack_id = none →
      ((handleNetworkTunnelTxRx msg s).response.isSome = true ↔
        s.last_ack_id = none)) := by
  refine ⟨?_, ?_, ?_⟩
  · rintro (hid | ⟨hla, hack⟩)
    · simp [handleNetworkTunnelTxRx, hid]
    · cases hid : msg.id with
      | none => simp [handleNetworkTunnelTxRx, hid]
      | some mid =>
          simp [handleNetworkTunnelTxRx, hid, hla, hack]
  · rintro ⟨hid, hck⟩
    cases hmid : msg.id with
    | none => exact absurd hmid hid
    | some mid =>
        rw [handleTunnel_eq msg s mid hmid hck]
        exact ⟨rfl, rfl⟩
  · intro hid hack
    cases hmid : msg.id with
    | none => exact absurd hmid hid
    | some mid =>
        cases hla : s.last_ack_id with
        | none =>
            rw [handleTunnel_eq msg s mid hmid (by simp [hla])]
            simp
        | some a =>
            simp [handleNetworkTunnelTxRx, hmid, hla, hack]

/-- C6 witness: a request with id 1 but no ack_id while last_ack_id = 5 is
established is dropped with no response and no state change. -/
theorem handleTunnel_missingFields_witness :
    handleNetworkTunnelTxRx
        { id := some 1, ack_id := none, payload := none,
          remaining_bytes := 0 }
        { next_id := 0, last_ack_id := some 5, frame_buffer := [],
          read_buffer := [], payload_in_flight := false } =
      { st := { next_id := 0, last_ack_id := some 5, frame_buffer := [],
                read_buffer := [], payload_in_flight := false },
        response := none, tunWrites := [],
        loggedMissingFields := true, loggedNonSequential := false } :=
  (handleTunnel_missingFields _ _).1 (Or.inr ⟨rfl, rfl⟩)

/-- C10: for every tunnel request that passes the missing-field check, a
response is composed, its ack_id is present (so the unguarded
last_ack_id_.value() access cannot fault: on a first message ValidateID
has just established last_ack_id) and it equals the secondary's current
last_ack_id. -/
theorem handleTunnel_ackPresent (msg : TunnelMsg) (s : SecondaryState)
    (mid : Nat) (hid : msg.id = some mid)
    (hck : ¬(s.last_ack_id.isSome = true ∧ msg.ack_id = none)) :
    ∃ r, (handleNetworkTunnelTxRx msg s).response = some r ∧
      r.ack_id = (handleNetworkTunnelTxRx msg s).st.last_ack_id ∧
      r.ack_id.isSome = true := by
  rw [handleTunnel_eq msg s mid hid hck]
  refine ⟨_, rfl, ?_, ?_⟩
  · show (composeStep _).1.ack_id = (composeStep _).2.last_ack_id
    rw [(composeStep_preserves _).2.2.2.2.2, (composeStep_preserves _).2.1]
  · show ((composeStep _).1.ack_id).isSome = true
    rw [(composeStep_preserves _).2.2.2.2.2, (ackStep_preserves _ _).1]
    exact preAckState_establishes msg s mid

/-- C10 witness: the very first message, carrying no ack_id, still yields
a response with a present ack_id. -/
theorem handleTunnel_ackPresent_witness :
    ∃ r, (handleNetworkTunnelTxRx
        { id := some 0, ack_id := none, payload := none,
          remaining_bytes := 0 }
        { next_id := 0, last_ack_id := none, frame_buffer := [],
          read_buffer := [], payload_in_flight := false }).response =
          some r ∧
      r.ack_id = (handleNetworkTunnelTxRx
        { id := some 0, ack_id := none, payload := none,
          remaining_bytes := 0 }
        { next_id := 0, last_ack_id := none, frame_buffer := [],
          read_buffer := [], payload_in_flight := false }).st.last_ack_id ∧
      r.ack_id.isSome = true :=
  handleTunnel_ackPresent _ _ 0 rfl (by simp)

/-- C2: on a received ack_id that differs from next_id, the ACK handling
changes nothing at all (in particular payload_in_flight is untouched
there); across the whole handler next_id and the read buffer are
unchanged, payload_in_flight stays set whenever a payload was in flight,
and the response retransmits the first min(|D|, 8) bytes of the unchanged
front datagram D. -/
theorem handleTunnel_ackMismatch (msg : TunnelMsg) (s : SecondaryState)
    (a : Nat) (hack : msg.ack_id = some a) (hne : a ≠ s.next_id) :
    ackStep msg s = s ∧
    (handleNetworkTunnelTxRx msg s).st.next_id = s.next_id ∧
    (handleNetworkTunnelTxRx msg s).st.read_buffer = s.read_buffer ∧
    (s.payload_in_flight = true →
      (handleNetworkTunnelTxRx msg s).st.payload_in_flight = true) ∧
    (∀ D rest r, s.read_buffer = D :: rest →
      (handleNetworkTunnelTxRx msg s).response = some r →
      r.payload = some (D.take (min D.length 8))) := by
  refine ⟨ackStep_mismatch msg s a hack hne, ?_⟩
  cases hmid : msg.id with
  | none =>
      rw [handleTunnel_malformed_eq msg s (Or.inl hmid)]
      refine ⟨rfl, rfl, fun h => h, ?_⟩
      intro D rest r hD hr
      exact Option.noConfusion hr
  | some mid =>
      have hck : ¬(s.last_ack_id.isSome = true ∧ msg.ack_id = none) := by
        intro hc
        rw [hack] at hc
        exact Option.noConfusion hc.2
      rw [handleTunnel_eq msg s mid hmid hck]
      have hpre := preAckState_preserves msg s mid
      have hstep : ackStep msg (preAckState msg s mid) =
          preAckState msg s mid :=
        ackStep_mismatch msg _ a hack (by rw [hpre.1]; exact hne)
      refine ⟨?_, ?_, ?_, ?_⟩
      · show (composeStep _).2.next_id = s.next_id
        rw [hstep, (composeStep_preserves _).1, hpre.1]
      · show (composeStep _).2.read_buffer = s.read_buffer
        rw [hstep, (composeStep_preserves _).2.2.2.1, hpre.2.1]
      · intro hp
        show (composeStep _).2.payload_in_flight = true
        rw [hstep, composeStep_pif, hpre.2.2, hp]
        simp
      · intro D rest r hD hr
        have hrr : (composeStep (ackStep msg (preAckState msg s mid))).1 =
            r := Option.some.inj hr
        rw [← hrr, hstep]
        have hDpre : (preAckState msg s mid).read_buffer = D :: rest := by
          rw [hpre.2.1, hD]
        exact (composeStep_chunk _ D rest hDpre).1

/-- C2 witness: with next_id 0, payload in flight and front datagram
[1, 2], a message acked with 9 leaves next_id, the read buffer and
payload_in_flight alone and retransmits [1, 2]. -/
theorem handleTunnel_ackMismatch_witness :
    (handleNetworkTunnelTxRx
        { id := some 4, ack_id := some 9, payload := none,
          remaining_bytes := 0 }
        { next_id := 0, last_ack_id := some 3, frame_buffer := [],
          read_buffer := [[1, 2]], payload_in_flight := true }).st.next_id =
      0 ∧
    (handleNetworkTunnelTxRx
        { id := some 4, ack_id := some 9, payload := none,
          remaining_bytes := 0 }
        { next_id := 0, last_ack_id := some 3, frame_buffer := [],
          read_buffer := [[1, 2]],
          payload_in_flight := true }).st.payload_in_flight = true :=
  ⟨(handleTunnel_ackMismatch _ _ 9 rfl (by norm_num)).2.1,
   (handleTunnel_ackMismatch _ _ 9 rfl (by norm_num)).2.2.2.1 rfl⟩

/-- C3: on a received ack_id equal to next_id while a payload is in
flight, the ACK step advances next_id by one mod 2^32, erases the first
min(|D|, 8) bytes of the front datagram D, pops D if it became empty and
clears payload_in_flight; across the whole handler next_id and the read
buffer end up exactly so; and next_id changes in no other case — whenever
any handled message changes next_id, that message carried
ack_id = next_id and the change is the advance by one mod 2^32. -/
theorem handleTunnel_ackMatch (msg : TunnelMsg) (s : SecondaryState)
    (mid : Nat) (hid : msg.id = some mid)
    (hack : msg.ack_id = some s.next_id)
    (hpif : s.payload_in_flight = true) :
    ackStep msg s =
      { s with next_id := (s.next_id + 1) % 2 ^ 32,
               read_buffer := eraseFrontChunk s.read_buffer,
               payload_in_flight := false } ∧
    (∀ D rest, s.read_buffer = D :: rest →
      (ackStep msg s).read_buffer =
        (if (D.drop (min D.length 8)).isEmpty then rest
         else D.drop (min D.length 8) :: rest)) ∧
    (handleNetworkTunnelTxRx msg s).st.next_id = (s.next_id + 1) % 2 ^ 32 ∧
    (handleNetworkTunnelTxRx msg s).st.read_buffer =
      eraseFrontChunk s.read_buffer ∧
    (∀ msg2 s2, (handleNetworkTunnelTxRx msg2 s2).st.next_id ≠ s2.next_id →
      (msg2.ack_id = some s2.next_id ∧
        (handleNetworkTunnelTxRx msg2 s2).st.next_id =
          (s2.next_id + 1) % 2 ^ 32)) := by
  have hck : ¬(s.last_ack_id.isSome = true ∧ msg.ack_id = none) := by
    intro hc
    rw [hack] at hc
    exact Option.noConfusion hc.2
  have hpre := preAckState_preserves msg s mid
  have hackp : msg.ack_id = some (preAckState msg s mid).next_id := by
    rw [hpre.1]
    exact hack
  have hpifp : (preAckState msg s mid).payload_in_flight = true := by
    rw [hpre.2.2]
    exact hpif
  refine ⟨ackStep_match msg s hack hpif, ?_, ?_, ?_, ?_⟩
  · intro D rest hD
    rw [ackStep_match msg s hack hpif]
    show eraseFrontChunk s.read_buffer = _
    rw [hD]
    simp [eraseFrontChunk]
  · rw [handleTunnel_eq msg s mid hid hck]
    show (composeStep _).2.next_id = _
    rw [(composeStep_preserves _).1, ackStep_next_id_match msg _ hackp,
      hpre.1]
  · rw [handleTunnel_eq msg s mid hid hck]
    show (composeStep _).2.read_buffer = _
    rw [(composeStep_preserves _).2.2.2.1, ackStep_match msg _ hackp hpifp]
    show eraseFrontChunk (preAckState msg s mid).read_buffer = _
    rw [hpre.2.1]
  · intro msg2 s2 hchg
    cases hmid2 : msg2.id with
    | none =>
        rw [handleTunnel_malformed_eq msg2 s2 (Or.inl hmid2)] at hchg
        exact absurd rfl hchg
    | some mid2 =>
        by_cases hck2 : s2.last_ack_id.isSome = true ∧ msg2.ack_id = none
        · rw [handleTunnel_malformed_eq msg2 s2 (Or.inr hck2)] at hchg
          exact absurd rfl hchg
        · rw [handleTunnel_eq msg2 s2 mid2 hmid2 hck2] at hchg ⊢
          have hpre2 := preAckState_preserves msg2 s2 mid2
          have hchg2 : (ackStep msg2 (preAckState msg2 s2 mid2)).next_id ≠
              (preAckState msg2 s2 mid2).next_id := by
            show _ ≠ _
            rw [hpre2.1]
            exact fun h => hchg (by
              show (composeStep _).2.next_id = s2.next_id
              rw [(composeStep_preserves _).1]
              exact h)
          have hackm := (ackStep_next_id msg2 _).mp hchg2
          constructor
          · rw [← hpre2.1]
            exact hackm
          · show (composeStep _).2.next_id = _
            rw [(composeStep_preserves _).1,
              ackStep_next_id_match msg2 _ hackm, hpre2.1]

/-- C3 witness: with next_id 2, a payload in flight and a ten-byte front
datagram, a message acked with 2 advances next_id to 3. -/
theorem handleTunnel_ackMatch_witness :
    (handleNetworkTunnelTxRx
        { id := some 2, ack_id := some 2, payload := none,
          remaining_bytes := 0 }
        { next_id := 2, last_ack_id := some 1, frame_buffer := [],
          read_buffer := [[1, 2, 3, 4, 5, 6, 7, 8, 9, 10]],
          payload_in_flight := true }).st.next_id = (2 + 1) % 2 ^ 32 :=
  (handleTunnel_ackMatch _ _ 2 rfl rfl rfl).2.2.1

/-- C1 counterexample: the non-sequential message mC1 (id 5 when 4 is
expected) against state sC1 is logged, but its ACK effects are not
skipped: next_id advances from 7 to 8, the front datagram is consumed and
payload_in_flight is cleared, refuting the claim that next_id,
payload_in_flight and the read buffer are unchanged. -/
theorem handleTunnel_invalidId_counterexample :
    (handleNetworkTunnelTxRx mC1 sC1).loggedNonSequential = true ∧
    (handleNetworkTunnelTxRx mC1 sC1).st.next_id = 8 ∧
    ¬((handleNetworkTunnelTxRx mC1 sC1).st.next_id = sC1.next_id ∧
      (handleNetworkTunnelTxRx mC1 sC1).st.payload_in_flight =
        sC1.payload_in_flight ∧
      (handleNetworkTunnelTxRx mC1 sC1).st.read_buffer =
        sC1.read_buffer) := by
  decide

/-- C1 amended: a message whose id fails the validity check is logged and
its payload effects are skipped (frame_buffer unchanged, no TUN write,
last_ack_id unchanged), and a response is still produced carrying
ack_id = last_ack_id; the ACK effects, however, are not skipped: the
handler state is exactly the composition step applied after the ordinary
ACK step on the untouched state. -/
theorem handleTunnel_invalidId (msg : TunnelMsg) (s : SecondaryState)
    (mid a : Nat) (hid : msg.id = some mid) (hack : msg.ack_id ≠ none)
    (hla : s.last_ack_id = some a) (hinv : mid ≠ (a + 1) % 2 ^ 32) :
    (handleNetworkTunnelTxRx msg s).loggedNonSequential = true ∧
    (handleNetworkTunnelTxRx msg s).st.frame_buffer = s.frame_buffer ∧
    (handleNetworkTunnelTxRx msg s).tunWrites = [] ∧
    (handleNetworkTunnelTxRx msg s).st.last_ack_id = some a ∧
    (∃ r, (handleNetworkTunnelTxRx msg s).response = some r ∧
      r.ack_id = some a) ∧
    (handleNetworkTunnelTxRx msg s).st = (composeStep (ackStep msg s)).2 := by
  have hck : ¬(s.last_ack_id.isSome = true ∧ msg.ack_id = none) :=
    fun hc => hack hc.2
  have hrej : validateID s mid = (false, s) :=
    validateID_reject s mid a hla hinv
  have hpre : preAckState msg s mid = s := by
    unfold preAckState
    rw [hrej]
    simp
  rw [handleTunnel_eq msg s mid hid hck, hpre, hrej]
  refine ⟨rfl, ?_, rfl, ?_, ⟨_, rfl, ?_⟩, rfl⟩
  · show (composeStep _).2.frame_buffer = s.frame_buffer
    rw [(composeStep_preserves _).2.2.1, (ackStep_preserves _ _).2]
  · show (composeStep _).2.last_ack_id = some a
    rw [(composeStep_preserves _).2.1, (ackStep_preserves _ _).1, hla]
  · show (composeStep _).1.ack_id = some a
    rw [(composeStep_preserves _).2.2.2.2.2, (ackStep_preserves _ _).1, hla]

/-- C1 witness: the amended theorem applied to the concrete C1 scenario. -/
theorem handleTunnel_invalidId_witness :
    (handleNetworkTunnelTxRx mC1 sC1).loggedNonSequential = true ∧
    (handleNetworkTunnelTxRx mC1 sC1).tunWrites = [] ∧
    (handleNetworkTunnelTxRx mC1 sC1).st.last_ack_id = some 3 :=
  ⟨(handleTunnel_invalidId mC1 sC1 5 3 rfl (by decide) rfl (by decide)).1,
   (handleTunnel_invalidId mC1 sC1 5 3 rfl (by decide) rfl
      (by decide)).2.2.1,
   (handleTunnel_invalidId mC1 sC1 5 3 rfl (by decide) rfl
      (by decide)).2.2.2.1⟩

/-- C5 counterexample: the valid payload-less message mC5 with
remaining_bytes = 0 against state sC5 (whose frame_buffer holds the byte
9) triggers no TUN write and leaves frame_buffer intact, refuting the
claim that the flush is conditioned only on remaining_bytes == 0. -/
theorem handleTunnel_flushNeedsPayload_counterexample :
    (handleNetworkTunnelTxRx mC5 sC5).loggedNonSequential = false ∧
    (handleNetworkTunnelTxRx mC5 sC5).tunWrites = [] ∧
    (handleNetworkTunnelTxRx mC5 sC5).st.frame_buffer = [9] ∧
    ¬((handleNetworkTunnelTxRx mC5 sC5).tunWrites = [[9]] ∧
      (handleNetworkTunnelTxRx mC5 sC5).st.frame_buffer = []) := by
  decide

/-- C5 amended: for every valid incoming message, a carried payload is
appended to frame_buffer, and the flush (write frame_buffer to the TUN fd
and clear it) happens exactly when the message both carries a payload and
has remaining_bytes = 0; a payload-less message never flushes, even with
remaining_bytes = 0. -/
theorem handleTunnel_receiveSide (msg : TunnelMsg) (s : SecondaryState)
    (mid : Nat) (hid : msg.id = some mid)
    (hck : ¬(s.last_ack_id.isSome = true ∧ msg.ack_id = none))
    (hvalid : (validateID s mid).1 = true) :
    (∀ p, msg.payload = some p → msg.remaining_bytes = 0 →
      ((handleNetworkTunnelTxRx msg s).tunWrites = [s.frame_buffer ++ p] ∧
        (handleNetworkTunnelTxRx msg s).st.frame_buffer = [])) ∧
    (∀ p, msg.payload = some p → msg.remaining_bytes ≠ 0 →
      ((handleNetworkTunnelTxRx msg s).tunWrites = [] ∧
        (handleNetworkTunnelTxRx msg s).st.frame_buffer =
          s.frame_buffer ++ p)) ∧
    (msg.payload = none →
      ((handleNetworkTunnelTxRx msg s).tunWrites = [] ∧
        (handleNetworkTunnelTxRx msg s).st.frame_buffer =
          s.frame_buffer)) := by
  rw [handleTunnel_eq msg s mid hid hck]
  have hpre : preAckState msg s mid =
      (payloadStep msg (validateID s mid).2).1 := by
    unfold preAckState
    rw [hvalid]
    simp
  have hfb : (validateID s mid).2.frame_buffer = s.frame_buffer :=
    (validateID_preserves s mid).2.1
  refine ⟨?_, ?_, ?_⟩
  · intro p hp hr
    have hps := payloadStep_flush msg (validateID s mid).2 p hp hr
    constructor
    · show (if (validateID s mid).1 then _ else _) = _
      rw [hvalid]
      simp only [if_true]
      rw [hps, hfb]
    · show (composeStep _).2.frame_buffer = _
      rw [(composeStep_preserves _).2.2.1, (ackStep_preserves _ _).2, hpre,
        hps]
  · intro p hp hr
    have hps := payloadStep_append msg (validateID s mid).2 p hp hr
    constructor
    · show (if (validateID s mid).1 then _ else _) = _
      rw [hvalid]
      simp only [if_true]
      rw [hps]
    · show (composeStep _).2.frame_buffer = _
      rw [(composeStep_preserves _).2.2.1, (ackStep_preserves _ _).2, hpre,
        hps]
      show (validateID s mid).2.frame_buffer ++ p = _
      rw [hfb]
  · intro hp
    have hps := payloadStep_nopayload msg (validateID s mid).2 hp
    constructor
    · show (if (validateID s mid).1 then _ else _) = _
      rw [hvalid]
      simp only [if_true]
      rw [hps]
    · show (composeStep _).2.frame_buffer = _
      rw [(composeStep_preserves _).2.2.1, (ackStep_preserves _ _).2, hpre,
        hps, hfb]

/-- C5 witness: a valid final fragment [7, 8] arriving with frame_buffer
[1] flushes [1, 7, 8] to the TUN fd and clears the buffer. -/
theorem handleTunnel_receiveSide_witness :
    (handleNetworkTunnelTxRx
        { id := some 4, ack_id := some 9, payload := some [7, 8],
          remaining_bytes := 0 }
        { next_id := 0, last_ack_id := some 3, frame_buffer := [1],
          read_buffer := [], payload_in_flight := false }).tunWrites =
      [[1] ++ [7, 8]] :=
  ((handleTunnel_receiveSide _ _ 4 rfl (by simp) (by decide)).1 [7, 8] rfl
    rfl).1

end Nerfnet
